import Mathlib

/-!
Verification of the chat-poc streaming pipeline: the Go event bus, the
Bubble Tea transcript reducer (`model.Update`), the stream-decoding read
loop inside `sendMessage`, and the TypeScript backend `EventBus.publish`.
Each definition is a shallow embedding of the corresponding source
function; theorems settle the spec claims against these embeddings.
-/

/-- Payload of an `Event` (`Data interface{}` in Go / `data?: T` in TS):
the dynamically typed JSON value carried by an event.  The reducer only
distinguishes strings, objects, and everything else, matching its type
switches `v.Data.(string)` and `v.Data.(map[string]interface{})`. -/
inductive EventData where
  | null : EventData
  | str (s : String) : EventData
  | obj (fields : List (String × EventData)) : EventData
  | num (n : Int) : EventData
  deriving Repr

/-- The Go `Event` struct: `Type string`, `Data interface{}`,
`Timestamp int64`.  A zero-valued `Data` is `.null`, a zero-valued
`Timestamp` is `0`, matching Go zero values. -/
structure Event where
  type : String
  data : EventData
  timestamp : Int
  deriving Repr

/-- Fixed capacity of every subscriber channel: `make(chan Event, 20)`. -/
def chanCap : Nat := 20

/-- The Go `Bus`: its observable state is the list of subscriber queues.
Each queue is the buffered channel's pending contents, oldest first.
The mutex serializes `Subscribe`/`Publish`, so the sequential functional
model below is the per-operation semantics. -/
structure GoBus where
  subscribers : List (List Event)
  deriving Repr

namespace GoBus

/-- `NewBus`: no subscribers. -/
def new : GoBus := ⟨[]⟩

/-- `Bus.Subscribe`: appends a fresh empty bounded queue. -/
def subscribe (b : GoBus) : GoBus :=
  ⟨b.subscribers ++ [[]]⟩

/-- `Bus.Publish`: for each subscriber channel, a non-blocking send
(`select { case ch <- event: default: }`) — enqueue when the channel has
free capacity, otherwise drop for that subscriber only.  The event value
is sent exactly as given; `Publish` never modifies it (in particular it
does not touch `Timestamp`). -/
def publish (b : GoBus) (e : Event) : GoBus :=
  ⟨b.subscribers.map (fun q => if q.length < chanCap then q ++ [e] else q)⟩

end GoBus

/-- Go `unicode.IsSpace`, the predicate `strings.TrimSpace` strips by:
the Latin-1 cases space, tab, newline, vertical tab, form feed,
carriage return, NEL (U+0085), NBSP (U+00A0), plus the remaining
Unicode White_Space code points U+1680, U+2000–U+200A, U+2028, U+2029,
U+202F, U+205F, U+3000. -/
def goIsSpace (c : Char) : Bool :=
  c = ' ' || c = '\t' || c = '\n' || c.val = 0x0B || c.val = 0x0C ||
  c = '\r' || c.val = 0x85 || c.val = 0xA0 || c.val = 0x1680 ||
  (0x2000 ≤ c.val && c.val ≤ 0x200A) ||
  c.val = 0x2028 || c.val = 0x2029 || c.val = 0x202F || c.val = 0x205F ||
  c.val = 0x3000

/-- Go `strings.TrimSpace`: drop leading and trailing whitespace. -/
def goTrimSpace (s : String) : String :=
  String.mk (((s.data.dropWhile goIsSpace).reverse.dropWhile goIsSpace).reverse)

/-- The observable TUI state of the Bubble Tea `model` (part_000, Bus
version): the text-input value, the committed transcript `messages`,
the `streaming` flag, and the in-flight buffer `currentResponse`.
Rendering-only fields (`width`, `height`, styles) are omitted; they never
feed back into `Update`. -/
structure Model where
  textInputValue : String
  messages : List String
  streaming : Bool
  currentResponse : String
  deriving Repr, DecidableEq

/-- `initialModel`: empty input, empty transcript, not streaming,
empty buffer. -/
def initialModel : Model :=
  ⟨"", [], false, ""⟩

mutual

/-- Rendering of a dynamically typed value by Go `fmt.Sprintf("%s", v)`,
used only in the `tool.start` branch.  A missing map key yields the nil
interface, printed as `%!s(<nil>)`; a decoded JSON object prints as
`map[k:v ...]`; a decoded JSON number is a `float64`, for which the `%s`
verb prints `%!s(float64=...)`. -/
def fmtS : EventData → String
  | .str s => s
  | .null => "%!s(<nil>)"
  | .obj fields => "map[" ++ fmtFields fields ++ "]"
  | .num n => "%!s(float64=" ++ toString n ++ ")"

/-- Space-separated `k:v` entries of a Go map printed by `fmt`. -/
def fmtFields : List (String × EventData) → String
  | [] => ""
  | [(k, v)] => k ++ ":" ++ fmtS v
  | (k, v) :: rest => k ++ ":" ++ fmtS v ++ " " ++ fmtFields rest

end

/-- Lookup `data["command"]` in a decoded JSON object; a missing key is
Go's nil interface value. -/
def lookupField (fields : List (String × EventData)) (k : String) : EventData :=
  match fields.find? (fun p => p.1 = k) with
  | some p => p.2
  | none => .null

/-- The `case Event:` branch of `model.Update` (part_000 lines 168-197):
the transcript reducer.  Each arm is the corresponding `switch v.Type`
case; an unknown type falls through with no change.  The trailing
`m.textInput.Update(msg)` leaves every modelled field unchanged for an
`Event` message (the textinput component only reacts to key messages),
so it is the identity here. -/
def updateEvent (m : Model) (e : Event) : Model :=
  if e.type = "chat.char" then
    match e.data with
    | .str s => { m with currentResponse := m.currentResponse ++ s }
    | _ => m
  else if e.type = "chat.complete" then
    let m1 :=
      if m.currentResponse.length > 0 then
        { m with messages := m.messages ++ ["Bot: " ++ m.currentResponse] }
      else m
    { m1 with currentResponse := "", streaming := false }
  else if e.type = "tool.start" then
    match e.data with
    | .obj fields =>
        { m with currentResponse :=
            m.currentResponse ++ ("\n\n🔧 Executing: " ++ fmtS (lookupField fields "command") ++ "\n") }
    | _ => m
  else if e.type = "tool.output" then
    match e.data with
    | .str s => { m with currentResponse := m.currentResponse ++ ("```\n" ++ s ++ "\n```\n") }
    | _ => m
  else if e.type = "tool.end" then
    { m with currentResponse := m.currentResponse ++ "\n" }
  else if e.type = "stream_err" then
    let m1 :=
      match e.data with
      | .str s => { m with messages := m.messages ++ ["Error: " ++ s] }
      | _ => m
    { m1 with currentResponse := "", streaming := false }
  else m

/-- The `case tea.KeyEnter:` branch of `model.Update` (part_000 lines
158-165).  Returns the updated model and, when a turn starts, the message
passed to `sendMessage` (the returned `tea.Cmd`).  When the guard fails
the switch falls through to `m.textInput.Update(msg)`, which ignores the
Enter key for a single-line textinput, leaving all modelled fields
unchanged. -/
def updateKeyEnter (m : Model) : Model × Option String :=
  if !m.streaming && goTrimSpace m.textInputValue ≠ "" then
    let message := goTrimSpace m.textInputValue
    ({ m with
        messages := m.messages ++ ["You: " ++ message],
        textInputValue := "",
        streaming := true },
      some message)
  else
    (m, none)

/-- Fold a list of events through the reducer. -/
def updateEvents (m : Model) (es : List Event) : Model :=
  es.foldl updateEvent m

/-- Shorthand for a `chat.char` event carrying one string fragment. -/
def chatChar (s : String) : Event := ⟨"chat.char", .str s, 0⟩

/-- Shorthand for a payload-free event (Go zero values for the rest). -/
def bareEvent (t : String) : Event := ⟨t, .null, 0⟩

/-- Claim C1: from Idle with an empty in-flight buffer, the sequence
chat.char "H", chat.char "i", chat.complete commits exactly one
assistant record with text "Hi", clears the buffer, and returns to
Idle — for any prior transcript and input value. -/
theorem C1_reducer_determinism (tiv : String) (msgs : List String) :
    updateEvents ⟨tiv, msgs, false, ""⟩
        [chatChar "H", chatChar "i", bareEvent "chat.complete"] =
      ⟨tiv, msgs ++ ["Bot: Hi"], false, ""⟩ := by
  rfl

/-- Shorthand for a `stream_err` event carrying a message string. -/
def streamErr (s : String) : Event := ⟨"stream_err", .str s, 0⟩

/-- Claim C4: in Streaming with an empty buffer, chat.char "X" then
stream_err "boom" commits exactly one error record whose text contains
"boom", discards the buffered "X" (never committing it), and returns to
Idle — for any prior transcript and input value. -/
theorem C4_error_short_circuit (tiv : String) (msgs : List String) :
    updateEvents ⟨tiv, msgs, true, ""⟩ [chatChar "X", streamErr "boom"] =
        ⟨tiv, msgs ++ ["Error: " ++ "boom"], false, ""⟩ ∧
      "Error: " ++ "boom" = "Error: " ++ "boom" ++ "" := by
  exact ⟨rfl, rfl⟩

/-- Counterexample to claim C6: a Streaming reducer that processes a
`stream_end` event stays Streaming — the `switch v.Type` in
`model.Update` has no `stream_end` case, so the event is ignored and the
state does not return to Idle. -/
theorem C6_counterexample :
    (updateEvent ⟨"", [], true, "X"⟩ (bareEvent "stream_end")).streaming = true := by
  rfl

/-- Claim C6 as amended: processing a `stream_end` event leaves the
entire reducer state unchanged — the transcript is not mutated (as the
claim says), but the streaming flag and in-flight buffer are also left
as they were, so the state does not move to Idle. -/
theorem C6_stream_end_ignored (m : Model) (d : EventData) (ts : Int) :
    updateEvent m ⟨"stream_end", d, ts⟩ = m := by
  cases d <;> rfl

/-- Claim C7: submitting a user message while Streaming is a no-op — the
model (transcript included) is unchanged and no `sendMessage` turn is
started. -/
theorem C7_streaming_input_rejected (m : Model) (h : m.streaming = true) :
    updateKeyEnter m = (m, none) := by
  simp [updateKeyEnter, h]

/-- Witness for C7 at a concrete Streaming model. -/
theorem C7_witness :
    updateKeyEnter ⟨"second message", ["You: hi"], true, "part"⟩ =
      (⟨"second message", ["You: hi"], true, "part"⟩, none) :=
  C7_streaming_input_rejected _ rfl

/-- Claim C9: a `stream_err` event whose data is not a string commits no
error record, yet still discards the in-flight buffer and returns the
state to Idle. -/
theorem C9_stream_err_nonstring (m : Model) (d : EventData) (ts : Int)
    (h : ∀ s, d ≠ EventData.str s) :
    updateEvent m ⟨"stream_err", d, ts⟩ =
      { m with currentResponse := "", streaming := false } := by
  cases d with
  | str s => exact absurd rfl (h s)
  | null => rfl
  | obj fields => rfl
  | num n => rfl

/-- Witness for C9: a payload-free `stream_err` in Streaming clears the
buffer and flag without touching the transcript. -/
theorem C9_witness :
    updateEvent ⟨"", ["You: hi"], true, "X"⟩ (bareEvent "stream_err") =
      ⟨"", ["You: hi"], false, ""⟩ :=
  C9_stream_err_nonstring _ _ _ (fun _ h => nomatch h)

/-- Claim C10: in Idle, a submission whose text trims to empty is a
no-op, and an accepted submission is committed with leading and trailing
whitespace trimmed from the message text. -/
theorem C10_trimmed_submission :
    (∀ m : Model, m.streaming = false → goTrimSpace m.textInputValue = "" →
        updateKeyEnter m = (m, none)) ∧
      (∀ m : Model, m.streaming = false → goTrimSpace m.textInputValue ≠ "" →
        updateKeyEnter m =
          ({ m with
              messages := m.messages ++ ["You: " ++ goTrimSpace m.textInputValue],
              textInputValue := "",
              streaming := true },
            some (goTrimSpace m.textInputValue))) := by
  constructor
  · intro m h1 h2
    simp [updateKeyEnter, h1, h2]
  · intro m h1 h2
    simp [updateKeyEnter, h1, h2]

/-- Witness for C10: an ASCII-space-only submission and a U+3000
(ideographic space) submission are both rejected in Idle, since
`strings.TrimSpace` strips every Unicode White_Space code point; " hi "
is accepted and committed as "You: hi". -/
theorem C10_witness :
    updateKeyEnter ⟨"   ", ["old"], false, ""⟩ = (⟨"   ", ["old"], false, ""⟩, none) ∧
      updateKeyEnter ⟨"　", ["old"], false, ""⟩ =
        (⟨"　", ["old"], false, ""⟩, none) ∧
      updateKeyEnter ⟨" hi ", ["old"], false, ""⟩ =
        (⟨"", ["old", "You: hi"], true, ""⟩, some "hi") := by
  refine ⟨?_, ?_, ?_⟩
  · exact C10_trimmed_submission.1 _ rfl rfl
  · exact C10_trimmed_submission.1 ⟨"　", ["old"], false, ""⟩ rfl (by decide)
  · exact C10_trimmed_submission.2 ⟨" hi ", ["old"], false, ""⟩ rfl (by decide)

/-- The TypeScript backend `Event`: `type: string`, `data?: T`,
`timestamp?: number` — the timestamp is absent until the bus stamps it. -/
structure TSEvent where
  type : String
  data : EventData
  timestamp : Option Int
  deriving Repr

/-- The TypeScript `EventBus`: handlers registered per event type (with
`"*"` for subscribe-all), identified here by subscription order. -/
structure TSBus where
  subscribers : List (String × List Nat)
  deriving Repr

/-- `this.subscribers[t]`: the handler list registered for type `t`,
empty when no entry exists. -/
def handlersFor (b : TSBus) (t : String) : List Nat :=
  match b.subscribers.find? (fun p => p.1 = t) with
  | some p => p.2
  | none => []

/-- `EventBus.publish` (server.ts lines 34-44): sets
`event.timestamp = Date.now()` and then invokes every handler registered
for the event's type, followed by every `"*"` handler, passing each the
stamped event.  Returns the delivery list (handler id, event received),
with `now` the value of `Date.now()` at this call. -/
def TSBus.publish (b : TSBus) (e : TSEvent) (now : Int) : List (Nat × TSEvent) :=
  let stamped : TSEvent := { e with timestamp := some now }
  (handlersFor b e.type ++ handlersFor b "*").map (fun h => (h, stamped))

/-- Counterexample to claim C2: the Go `Bus.Publish` never assigns a
timestamp — it delivers each event with the caller-supplied timestamp
unchanged.  Republishing a decoded wire event stamped 100 and then the
decoder's `Event{Type: "stream_end"}` (zero timestamp) delivers
timestamps 100, 0 to the same subscriber of the same Go bus: not
bus-assigned, and decreasing. -/
theorem C2_counterexample :
    ((GoBus.publish (GoBus.publish GoBus.new.subscribe
          ⟨"chat.complete", .null, 100⟩) (bareEvent "stream_end")).subscribers.map
        (fun q => q.map Event.timestamp)) = [[100, 0]] ∧ ¬ (100 : Int) ≤ 0 := by
  exact ⟨rfl, by norm_num⟩

/-- Claim C2 as amended: the TypeScript backend's `EventBus.publish`
assigns `timestamp = Date.now()` at publish time, so every delivered
event carries the bus-assigned publish-time stamp, and stamps are
monotonically non-decreasing whenever the successive clock readings are
(the Go frontend bus, by `C2_counterexample`, delivers events with the
caller's timestamp unchanged and gives no such guarantee). -/
theorem C2_ts_publish_stamps (b1 b2 : TSBus) (e1 e2 : TSEvent) (n1 n2 : Int)
    (hn : n1 ≤ n2) (p1 p2 : Nat × TSEvent)
    (h1 : p1 ∈ TSBus.publish b1 e1 n1) (h2 : p2 ∈ TSBus.publish b2 e2 n2) :
    p1.2.timestamp = some n1 ∧ p2.2.timestamp = some n2 ∧
      ∀ t1 t2, p1.2.timestamp = some t1 → p2.2.timestamp = some t2 → t1 ≤ t2 := by
  obtain ⟨a1, hm1, rfl⟩ := List.mem_map.1 h1
  obtain ⟨a2, hm2, rfl⟩ := List.mem_map.1 h2
  refine ⟨rfl, rfl, ?_⟩
  intro t1 t2 ht1 ht2
  have hx1 : n1 = t1 := by simpa using ht1
  have hx2 : n2 = t2 := by simpa using ht2
  rw [← hx1, ← hx2]
  exact hn

/-- Witness for the amended C2 at a concrete bus with one `"*"` handler
and two publishes at clock readings 5 ≤ 7. -/
theorem C2_witness :
    ((0, ⟨"chat.char", EventData.str "a", some 5⟩) : Nat × TSEvent).2.timestamp = some 5 ∧
      ((0, ⟨"chat.complete", EventData.null, some 7⟩) : Nat × TSEvent).2.timestamp = some 7 ∧
      ∀ t1 t2,
        ((0, ⟨"chat.char", EventData.str "a", some 5⟩) : Nat × TSEvent).2.timestamp = some t1 →
        ((0, ⟨"chat.complete", EventData.null, some 7⟩) : Nat × TSEvent).2.timestamp = some t2 →
          t1 ≤ t2 := by
  exact C2_ts_publish_stamps ⟨[("*", [0])]⟩ ⟨[("*", [0])]⟩
    ⟨"chat.char", .str "a", none⟩ ⟨"chat.complete", .null, none⟩ 5 7 (by norm_num)
    _ _ (List.Mem.head _) (List.Mem.head _)

/-- Claim C3: publishing one event enqueues it (in FIFO position) into
every subscriber queue with free capacity and leaves a full queue
unchanged — per subscriber, independent of every other subscriber's
queue state; `Publish` is a total function, so it always returns, and it
reports nothing to the publisher. -/
theorem C3_fanout_isolation (b : GoBus) (e : Event) (i : Nat) (q : List Event)
    (h : b.subscribers[i]? = some q) :
    (GoBus.publish b e).subscribers[i]? =
      some (if q.length < chanCap then q ++ [e] else q) := by
  simp [GoBus.publish, List.getElem?_map, h]

/-- Witness for C3: a bus whose first subscriber queue is full (20
pending events) and whose second is empty — the publish drops for the
first subscriber only and delivers to the second. -/
theorem C3_witness :
    (GoBus.publish ⟨[List.replicate chanCap (bareEvent "x"), []]⟩
        (chatChar "a")).subscribers[0]? =
        some (List.replicate chanCap (bareEvent "x")) ∧
      (GoBus.publish ⟨[List.replicate chanCap (bareEvent "x"), []]⟩
        (chatChar "a")).subscribers[1]? = some [chatChar "a"] := by
  constructor
  · exact C3_fanout_isolation ⟨[List.replicate chanCap (bareEvent "x"), []]⟩
      (chatChar "a") 0 (List.replicate chanCap (bareEvent "x")) rfl
  · exact C3_fanout_isolation ⟨[List.replicate chanCap (bareEvent "x"), []]⟩
      (chatChar "a") 1 [] rfl

/-- Outcome of one `reader.ReadBytes('\n')` call in the `sendMessage`
read loop: a complete line, end of input (`io.EOF`), or another read
error with its `err.Error()` text. -/
inductive ReadResult where
  | line (s : String) : ReadResult
  | eof : ReadResult
  | fail (msg : String) : ReadResult
  deriving Repr, DecidableEq

/-- The goroutine read loop of `sendMessage` (part_000 lines 280-304)
run over a prefix of read outcomes, parameterized by the line decoder
(`json.Unmarshal` into an `Event`).  Returns the events it publishes
onto `appBus`, in order: `io.EOF` publishes `Event{Type: "stream_end"}`
and stops; any other read error publishes a `stream_err` carrying the
error text and stops; a line that fails to decode publishes a
`stream_err` prefixed "Invalid JSON: " and continues; a decoded event is
republished unchanged. -/
def readLoop (decode : String → Except String Event) : List ReadResult → List Event
  | [] => []
  | ReadResult.eof :: _ => [bareEvent "stream_end"]
  | ReadResult.fail msg :: _ => [streamErr msg]
  | ReadResult.line s :: rest =>
      match decode s with
      | .error emsg => streamErr ("Invalid JSON: " ++ emsg) :: readLoop decode rest
      | .ok evt => evt :: readLoop decode rest

/-- Claim C5: for every input line of the stream decoder — end of input
publishes a terminal `stream_end` and stops; any other read error
publishes a `stream_err` with the error text and stops; a line failing
to decode publishes a `stream_err` describing the decode error and the
loop continues with the subsequent lines; a successfully decoded record
is republished unchanged onto the local bus. -/
theorem C5_decoder_loop (decode : String → Except String Event)
    (rest : List ReadResult) (s : String) :
    readLoop decode (ReadResult.eof :: rest) = [bareEvent "stream_end"] ∧
      (∀ msg, readLoop decode (ReadResult.fail msg :: rest) = [streamErr msg]) ∧
      (∀ emsg, decode s = .error emsg →
        readLoop decode (ReadResult.line s :: rest) =
          streamErr ("Invalid JSON: " ++ emsg) :: readLoop decode rest) ∧
      (∀ evt, decode s = .ok evt →
        readLoop decode (ReadResult.line s :: rest) = evt :: readLoop decode rest) := by
  refine ⟨rfl, fun msg => rfl, ?_, ?_⟩
  · intro emsg h
    simp [readLoop, h]
  · intro evt h
    simp [readLoop, h]

/-- A concrete line decoder for the C5 witness: "ok" decodes to a
`chat.char` event, anything else is a syntax error. -/
def decode0 : String → Except String Event := fun s =>
  if s = "ok" then Except.ok (chatChar "Z") else Except.error "syntax"

/-- Witness for C5 with `decode0`: EOF terminates with `stream_end`; a
reset terminates with its error text; a malformed line yields an
"Invalid JSON" `stream_err` and the loop continues to the EOF; a decoded
line is republished unchanged before the loop continues. -/
theorem C5_witness :
    readLoop decode0 [ReadResult.eof] = [bareEvent "stream_end"] ∧
      readLoop decode0 [ReadResult.fail "connection reset"] =
        [streamErr "connection reset"] ∧
      readLoop decode0 [ReadResult.line "bad", ReadResult.eof] =
        [streamErr ("Invalid JSON: " ++ "syntax"), bareEvent "stream_end"] ∧
      readLoop decode0 [ReadResult.line "ok", ReadResult.eof] =
        [chatChar "Z", bareEvent "stream_end"] := by
  refine ⟨(C5_decoder_loop decode0 [] "x").1, ?_, ?_, ?_⟩
  · exact (C5_decoder_loop decode0 [] "x").2.1 "connection reset"
  · exact (C5_decoder_loop decode0 [ReadResult.eof] "bad").2.2.1 "syntax" rfl
  · exact (C5_decoder_loop decode0 [ReadResult.eof] "ok").2.2.2 (chatChar "Z") rfl

/-- The timeout configured on the HTTP client in `sendMessage`:
`&http.Client{Timeout: 60 * time.Second}`, in milliseconds. -/
def sendMessageClientTimeoutMs : Nat := 60 * 1000

/-- Go `net/http` semantics for `http.Client.Timeout`: when non-zero it
bounds the entire exchange — connecting, redirects, and reading the
response body; `0` means no timeout.  This function gives the deadline
under which the streaming body is read. -/
def bodyReadDeadlineMs (clientTimeoutMs : Nat) : Option Nat :=
  if clientTimeoutMs = 0 then none else some clientTimeoutMs

/-- Claim C8 fails on the code: the client timeout is 60 000 ms and
non-zero, so by Go's `http.Client.Timeout` semantics the streaming body
read is subject to that deadline — a turn cannot run arbitrarily long,
contradicting the claim that only connection establishment is bounded. -/
theorem C8_body_read_has_deadline :
    bodyReadDeadlineMs sendMessageClientTimeoutMs = some 60000 ∧
      sendMessageClientTimeoutMs ≠ 0 := by
  exact ⟨rfl, by norm_num [sendMessageClientTimeoutMs]⟩
